import Mathlib

/-
Shallow embedding of the Spend-Wise expense manager (src/main.py, class
ExpenseManager) and verification of its specification.

Modelling conventions:
* Python floats are modelled as exact rationals; float(x) is the identity on
  that model.
* A raised Python exception is modelled as an Except.error result; an
  operation that raises leaves the ledger state unchanged, as in the source,
  where every raise happens before any mutation of self.
* Dates live in the state as strings, exactly as in the source; they are
  parsed only inside generate_expense_report via
  datetime.strptime(_, "%Y-%m-%d").
* The JSON document written by save_data and read by load_data is modelled by
  a small JSON value type; int and float JSON numbers are identified as exact
  rationals, and parsed Python dicts (which have unique keys) are modelled as
  association lists with first-match lookup.
-/

/- Calendar dates, as produced by datetime.strptime(s, "%Y-%m-%d"). -/
structure Date where
  year : Nat
  month : Nat
  day : Nat
deriving DecidableEq, Repr

def digitVal (c : Char) : Option Nat :=
  if '0' ≤ c ∧ c ≤ '9' then some (c.toNat - '0'.toNat) else none

def parseNatAux : List Char → Nat → Option Nat
  | [], n => some n
  | c :: cs, n =>
    match digitVal c with
    | some d => parseNatAux cs (10 * n + d)
    | none => none

/- Parse a nonempty all-digit character group as a natural number. -/
def parseNat : List Char → Option Nat
  | [] => none
  | c :: cs => parseNatAux (c :: cs) 0

/- Split a character list on the dash character; never returns []. -/
def splitDashes : List Char → List (List Char)
  | [] => [[]]
  | c :: cs =>
    if c = '-' then [] :: splitDashes cs
    else
      match splitDashes cs with
      | [] => [[c]]
      | g :: gs => (c :: g) :: gs

def isLeapYear (y : Nat) : Bool :=
  (y % 4 == 0 && y % 100 != 0) || y % 400 == 0

def daysInMonth (y m : Nat) : Nat :=
  if m = 2 then (if isLeapYear y then 29 else 28)
  else if m = 4 ∨ m = 6 ∨ m = 9 ∨ m = 11 then 30
  else 31

/- Models datetime.strptime(s, "%Y-%m-%d"): three dash-separated digit
groups, month in 1..12, day in range for the month; none models the
ValueError raised on any other string. -/
def parseDate (s : String) : Option Date :=
  match splitDashes s.data with
  | [ys, ms, ds] =>
    match parseNat ys, parseNat ms, parseNat ds with
    | some y, some m, some d =>
      if 1 ≤ m ∧ m ≤ 12 ∧ 1 ≤ d ∧ d ≤ daysInMonth y m then some ⟨y, m, d⟩ else none
    | _, _, _ => none
  | _ => none

def pad2 (n : Nat) : String :=
  if n < 10 then "0" ++ toString n else toString n

/- Models date.strftime("%Y-%m-%d") for the dates this program handles. -/
def formatDate (d : Date) : String :=
  toString d.year ++ "-" ++ pad2 d.month ++ "-" ++ pad2 d.day

/- One expense record, the dict built by add_expense. -/
structure Expense where
  id : Int
  amount : ℚ
  category : String
  date : String
  description : String
deriving DecidableEq, Repr

/- The self.spending_limits dict. -/
structure SpendingLimits where
  daily : ℚ
  monthly : ℚ
  yearly : ℚ
deriving DecidableEq, Repr

/- The mutable fields of an ExpenseManager instance. -/
structure LedgerState where
  expenses : List Expense
  income : ℚ
  spending_limits : SpendingLimits
deriving DecidableEq, Repr

/- The field values set in ExpenseManager.__init__ before load_data runs. -/
def initialState : LedgerState :=
  { expenses := [], income := 0, spending_limits := ⟨0, 0, 0⟩ }

/- The Python exceptions the embedded code can raise. -/
inductive PyError where
  | valueError
  | keyError
  | attributeError
deriving DecidableEq, Repr

/- The expense_date of add_expense line 74: Python `date or default` treats
both None and the empty string as absent. -/
def mkExpenseDate (date : Option String) (today : Date) : String :=
  match date with
  | some ds => if ds = "" then formatDate today else ds
  | none => formatDate today

/- The expense dict built on add_expense lines 76-82. -/
def mkExpense (s : LedgerState) (amount : ℚ) (category : String)
    (date : Option String) (description : String) (today : Date) : Expense :=
  { id := (s.expenses.length : Int) + 1, amount := amount, category := category,
    date := mkExpenseDate date today, description := description }

/- ExpenseManager.add_expense (src/main.py lines 66-86). today stands for
datetime.now(). -/
def add_expense (s : LedgerState) (amount : ℚ) (category : String)
    (date : Option String) (description : String) (today : Date) :
    Except PyError (LedgerState × Expense) :=
  if amount ≤ 0 then .error .valueError
  else
    .ok ({ s with expenses :=
             s.expenses ++ [mkExpense s amount category date description today] },
         mkExpense s amount category date description today)

/- The keyword arguments of edit_expense. Every key of the expense dict,
including its id, passes the `if key in expense` test of line 96;
keys not present in the dict are silently ignored and hence not modelled. -/
structure EditArgs where
  id : Option Int := none
  amount : Option ℚ := none
  category : Option String := none
  date : Option String := none
  description : Option String := none
deriving DecidableEq, Repr

/- The kwargs-update loop of edit_expense lines 95-97. -/
def applyEdit (e : Expense) (u : EditArgs) : Expense :=
  { id := u.id.getD e.id, amount := u.amount.getD e.amount,
    category := u.category.getD e.category, date := u.date.getD e.date,
    description := u.description.getD e.description }

/- Update the first record whose id matches, as the for-loop of
edit_expense does; none models falling through to the raise on line 100. -/
def editFirst : List Expense → Int → EditArgs → Option (List Expense × Expense)
  | [], _, _ => none
  | e :: rest, i, u =>
    if e.id = i then some (applyEdit e u :: rest, applyEdit e u)
    else
      match editFirst rest i u with
      | some (l, r) => some (e :: l, r)
      | none => none

/- ExpenseManager.edit_expense (src/main.py lines 88-100). -/
def edit_expense (s : LedgerState) (expense_id : Int) (u : EditArgs) :
    Except PyError (LedgerState × Expense) :=
  match editFirst s.expenses expense_id u with
  | some (l, e) => .ok ({ s with expenses := l }, e)
  | none => .error .valueError

/- ExpenseManager.delete_expense (src/main.py lines 102-107). -/
def delete_expense (s : LedgerState) (expense_id : Int) : LedgerState :=
  { s with expenses := s.expenses.filter (fun e => decide (e.id ≠ expense_id)) }

/- ExpenseManager.set_income (src/main.py lines 109-116). -/
def set_income (s : LedgerState) (amount : ℚ) : Except PyError LedgerState :=
  if amount < 0 then .error .valueError
  else .ok { s with income := amount }

def setLimitField (l : SpendingLimits) (limit_type : String) (amount : ℚ) : SpendingLimits :=
  if limit_type = "daily" then { l with daily := amount }
  else if limit_type = "monthly" then { l with monthly := amount }
  else { l with yearly := amount }

/- ExpenseManager.set_spending_limit (src/main.py lines 118-129). -/
def set_spending_limit (s : LedgerState) (limit_type : String) (amount : ℚ) :
    Except PyError LedgerState :=
  if limit_type ≠ "daily" ∧ limit_type ≠ "monthly" ∧ limit_type ≠ "yearly" then
    .error .valueError
  else if amount < 0 then .error .valueError
  else .ok { s with spending_limits := setLimitField s.spending_limits limit_type amount }

/- Insertion-order dict update, as Python category_totals[category] = ... -/
def updateAssoc : List (String × ℚ) → String → ℚ → List (String × ℚ)
  | [], c, a => [(c, a)]
  | (k, v) :: rest, c, a =>
    if k = c then (k, v + a) :: rest else (k, v) :: updateAssoc rest c a

/- ExpenseManager.get_expenses_by_category (src/main.py lines 131-140). -/
def get_expenses_by_category (s : LedgerState) : List (String × ℚ) :=
  s.expenses.foldl (fun acc e => updateAssoc acc e.category e.amount) []

/- The report dict of generate_expense_report; daily, monthly and yearly are
the entries of its current_expenses sub-dict. -/
structure Report where
  total_expenses : ℚ
  category_breakdown : List (String × ℚ)
  income : ℚ
  remaining_budget : ℚ
  spending_limits : SpendingLimits
  daily : ℚ
  monthly : ℚ
  yearly : ℚ
deriving DecidableEq, Repr

def sumAmounts (l : List Expense) : ℚ :=
  (l.map Expense.amount).sum

/- ExpenseManager.generate_expense_report (src/main.py lines 142-182).
pd.DataFrame(self.expenses)["amount"] raises KeyError when the expense list
is empty, because the DataFrame of an empty list has no columns; with a
nonempty list, strptime raises ValueError on the first unparsable record
date. The embedding performs those two checks up front and otherwise returns
the record of sums the source computes. -/
def generate_expense_report (s : LedgerState) (today : Date) : Except PyError Report :=
  if s.expenses.isEmpty then .error .keyError
  else if s.expenses.all (fun e => (parseDate e.date).isSome) then
    .ok
      { total_expenses := sumAmounts s.expenses,
        category_breakdown := get_expenses_by_category s,
        income := s.income,
        remaining_budget := s.income - sumAmounts s.expenses,
        spending_limits := s.spending_limits,
        daily := sumAmounts (s.expenses.filter (fun e => decide (parseDate e.date = some today))),
        monthly := sumAmounts (s.expenses.filter
          (fun e => decide ((parseDate e.date).map Date.month = some today.month))),
        yearly := sumAmounts (s.expenses.filter
          (fun e => decide ((parseDate e.date).map Date.year = some today.year))) }
  else .error .valueError

/- The mutating operations of the spec, with their arguments. today stands
for the datetime.now() of the call. -/
inductive Op where
  | add (amount : ℚ) (category : String) (date : Option String) (description : String)
      (today : Date)
  | edit (expense_id : Int) (u : EditArgs)
  | delete (expense_id : Int)
  | setIncome (amount : ℚ)
  | setLimit (limit_type : String) (amount : ℚ)

/- Run one operation; a raised validation error leaves the state unchanged,
as in the source, where every raise happens before any mutation. -/
def applyOp (s : LedgerState) : Op → LedgerState
  | .add a c d ds t =>
    match add_expense s a c d ds t with
    | .ok (s2, _) => s2
    | .error _ => s
  | .edit i u =>
    match edit_expense s i u with
    | .ok (s2, _) => s2
    | .error _ => s
  | .delete i => delete_expense s i
  | .setIncome a =>
    match set_income s a with
    | .ok s2 => s2
    | .error _ => s
  | .setLimit lt a =>
    match set_spending_limit s lt a with
    | .ok s2 => s2
    | .error _ => s

def runOps (s : LedgerState) (ops : List Op) : LedgerState :=
  ops.foldl applyOp s

/- JSON values, for the durable record written by save_data. -/
inductive Json where
  | num (q : ℚ)
  | str (s : String)
  | boolean (b : Bool)
  | null
  | arr (elems : List Json)
  | obj (fields : List (String × Json))

/- Python dict lookup with default, data.get(key, d); parsed dicts have
unique keys, so first-match lookup on the association list is faithful. -/
def lookupD : List (String × Json) → String → Json → Json
  | [], _, d => d
  | (k, v) :: rest, key, d => if k = key then v else lookupD rest key d

def encodeExpense (e : Expense) : Json :=
  .obj [("id", .num (e.id : ℚ)), ("amount", .num e.amount), ("category", .str e.category),
        ("date", .str e.date), ("description", .str e.description)]

def encodeLimits (l : SpendingLimits) : Json :=
  .obj [("daily", .num l.daily), ("monthly", .num l.monthly), ("yearly", .num l.yearly)]

/- ExpenseManager.save_data (src/main.py lines 52-64): the JSON document
json.dump writes. -/
def save_data (s : LedgerState) : Json :=
  .obj [("expenses", .arr (s.expenses.map encodeExpense)),
        ("income", .num s.income),
        ("spending_limits", encodeLimits s.spending_limits)]

def asIntOpt : Json → Option Int
  | .num q => if q.den = 1 then some q.num else none
  | _ => none

def asNumOpt : Json → Option ℚ
  | .num q => some q
  | _ => none

def asNumD (j : Json) (d : ℚ) : ℚ :=
  match j with
  | .num q => q
  | _ => d

def asStrOpt : Json → Option String
  | .str s => some s
  | _ => none

/- Decode one stored expense object of the durable record format (spec
section 6): id, amount, category and date are required, description defaults
to "" as in the code's own expense.get("description", "") accesses. The
source keeps the parsed dicts raw; the typed embedding decodes documents of
the documented format. -/
def decodeExpense : Json → Option Expense
  | .obj fields =>
    match asIntOpt (lookupD fields "id" .null), asNumOpt (lookupD fields "amount" .null),
          asStrOpt (lookupD fields "category" .null), asStrOpt (lookupD fields "date" .null) with
    | some i, some a, some c, some d =>
      some { id := i, amount := a, category := c, date := d,
             description := (asStrOpt (lookupD fields "description" (.str ""))).getD "" }
    | _, _, _, _ => none
  | _ => none

def decodeExpenses : Json → List Expense
  | .arr elems => elems.filterMap decodeExpense
  | _ => []

def decodeLimits : Json → SpendingLimits
  | .obj fields =>
    { daily := asNumD (lookupD fields "daily" (.num 0)) 0,
      monthly := asNumD (lookupD fields "monthly" (.num 0)) 0,
      yearly := asNumD (lookupD fields "yearly" (.num 0)) 0 }
  | _ => ⟨0, 0, 0⟩

/- The condition of the storage target read by load_data: the file may be
missing (os.path.exists false), unreadable (IOError), hold text that is not
JSON (json.JSONDecodeError), or parse to a JSON document. -/
inductive Storage where
  | absent
  | unreadable
  | invalidJson
  | parsed (document : Json)

/- ExpenseManager.load_data (src/main.py lines 27-50). An absent file leaves
the __init__ field values in place; IOError and JSONDecodeError are caught
and reset the fields to the same empty values; a parsed non-object document
hits data.get on a non-dict, raising an AttributeError that the except
clause does not catch. -/
def load_data : Storage → Except PyError LedgerState
  | .absent => .ok initialState
  | .unreadable => .ok initialState
  | .invalidJson => .ok initialState
  | .parsed (.obj fields) => .ok
      { expenses := decodeExpenses (lookupD fields "expenses" (.arr [])),
        income := asNumD (lookupD fields "income" (.num 0)) 0,
        spending_limits := decodeLimits (lookupD fields "spending_limits"
          (.obj [("daily", .num 0), ("monthly", .num 0), ("yearly", .num 0)])) }
  | .parsed _ => .error .attributeError

def optEntry (key : String) (v : Option Json) : List (String × Json) :=
  match v with
  | some j => [(key, j)]
  | none => []

/- A stored JSON object containing only the top-level keys that are present
among the three options, each holding a well-typed value. -/
def mkStoredDoc (oe : Option (List Expense)) (oi : Option ℚ) (ol : Option SpendingLimits) :
    Json :=
  .obj (optEntry "expenses" (oe.map (fun l => .arr (l.map encodeExpense))) ++
        optEntry "income" (oi.map Json.num) ++
        optEntry "spending_limits" (ol.map encodeLimits))

/- Spec-side predicate: the record's date equals today. -/
def sameDayAsToday (today : Date) (e : Expense) : Bool :=
  match parseDate e.date with
  | some d => decide (d = today)
  | none => false

/- Spec-side predicate: the record's date has the same month number as
today, regardless of year. -/
def sameMonthNumber (today : Date) (e : Expense) : Bool :=
  match parseDate e.date with
  | some d => decide (d.month = today.month)
  | none => false

/- Spec-side predicate: the record's date falls in the current calendar
year. -/
def sameCalendarYear (today : Date) (e : Expense) : Bool :=
  match parseDate e.date with
  | some d => decide (d.year = today.year)
  | none => false

/- Concrete inputs used by witnesses and counterexamples. -/
def t0 : Date := ⟨2024, 3, 10⟩

def s4 : LedgerState :=
  { expenses := [{ id := 1, amount := 5, category := "food", date := "2024-03-10",
                   description := "" }],
    income := 0, spending_limits := ⟨0, 0, 0⟩ }

def s5 : LedgerState :=
  { expenses := [], income := 1000, spending_limits := ⟨0, 0, 0⟩ }

def s6 : LedgerState :=
  { expenses :=
      [{ id := 1, amount := 1, category := "a", date := "2024-03-10", description := "" },
       { id := 2, amount := 2, category := "b", date := "2023-03-01", description := "" },
       { id := 3, amount := 4, category := "c", date := "2024-04-01", description := "" },
       { id := 4, amount := 8, category := "d", date := "2023-05-05", description := "" }],
    income := 100, spending_limits := ⟨0, 0, 0⟩ }

def opsC1 : List Op :=
  [.add 5 "food" (some "2024-01-01") "" t0,
   .add 6 "rent" (some "2024-01-02") "" t0,
   .delete 1,
   .add 7 "misc" (some "2024-01-03") "" t0]

def opsC3 : List Op :=
  [.add 5 "food" (some "2024-01-01") "" t0,
   .edit 1 { amount := some (-3) }]

/- Helper lemmas shared between claims. -/

theorem decodeExpense_encode (e : Expense) : decodeExpense (encodeExpense e) = some e := rfl

theorem filterMapDecode_encode (l : List Expense) :
    List.filterMap decodeExpense (l.map encodeExpense) = l := by
  induction l with
  | nil => rfl
  | cons e rest ih => simp [List.filterMap_cons, decodeExpense_encode, ih]

theorem decodeExpenses_encode (l : List Expense) :
    decodeExpenses (.arr (l.map encodeExpense)) = l :=
  filterMapDecode_encode l

theorem decodeLimits_encode (l : SpendingLimits) : decodeLimits (encodeLimits l) = l := rfl

theorem filter_idem {α : Type} (p : α → Bool) (l : List α) :
    (l.filter p).filter p = l.filter p := by
  simp [List.filter_filter]

theorem applyEdit_id_of_none (e : Expense) (u : EditArgs) (h : u.id = none) :
    (applyEdit e u).id = e.id := by
  simp [applyEdit, h]

theorem editFirst_map_id (i : Int) (u : EditArgs) (h : u.id = none) :
    ∀ (l l2 : List Expense) (r : Expense), editFirst l i u = some (l2, r) →
      l2.map Expense.id = l.map Expense.id := by
  intro l
  induction l with
  | nil => intro l2 r he; simp [editFirst] at he
  | cons a rest ih =>
    intro l2 r he
    rw [editFirst] at he
    by_cases hid : a.id = i
    · rw [if_pos hid] at he
      simp only [Option.some.injEq, Prod.mk.injEq] at he
      obtain ⟨h1, _⟩ := he
      rw [← h1]
      simp [applyEdit_id_of_none a u h]
    · rw [if_neg hid] at he
      cases hrec : editFirst rest i u with
      | none => rw [hrec] at he; simp at he
      | some p =>
        cases p with
        | mk l3 r3 =>
          rw [hrec] at he
          simp only [Option.some.injEq, Prod.mk.injEq] at he
          obtain ⟨h1, _⟩ := he
          rw [← h1]
          simp [ih l3 r3 hrec]

theorem sameDayAsToday_eq (today : Date) (e : Expense) :
    sameDayAsToday today e = decide (parseDate e.date = some today) := by
  unfold sameDayAsToday
  cases h : parseDate e.date with
  | none => simp
  | some d => simp

theorem sameMonthNumber_eq (today : Date) (e : Expense) :
    sameMonthNumber today e = decide ((parseDate e.date).map Date.month = some today.month) := by
  unfold sameMonthNumber
  cases h : parseDate e.date with
  | none => simp
  | some d => simp

theorem sameCalendarYear_eq (today : Date) (e : Expense) :
    sameCalendarYear today e = decide ((parseDate e.date).map Date.year = some today.year) := by
  unfold sameCalendarYear
  cases h : parseDate e.date with
  | none => simp
  | some d => simp

/-- Claim C1 (code bug): the spec requires every record id to be unique in
every reachable state, and flags count-based id assignment as a defect. This
theorem evaluates the code at the failing input: add two expenses, delete
id 1, add again; the new record receives id = count + 1 = 2, colliding with
the surviving record's id 2. -/
theorem C1_id_collision :
    ((runOps initialState opsC1).expenses.map Expense.id) = [2, 2] := rfl

/-- Claim C2 (confirmed): for strictly positive amounts add_expense succeeds
and the returned record's amount equals the input; for non-positive amounts
it raises ValueError (InvalidAmount) and the record collection is
unchanged. -/
theorem C2_add_expense_validation (s : LedgerState) (amount : ℚ) (category : String)
    (date : Option String) (description : String) (today : Date) :
    (0 < amount → ∃ s2 e, add_expense s amount category date description today = .ok (s2, e) ∧
      e.amount = amount) ∧
    (amount ≤ 0 → add_expense s amount category date description today = .error .valueError ∧
      applyOp s (.add amount category date description today) = s) := by
  constructor
  · intro h
    have hn : ¬ amount ≤ 0 := not_le.mpr h
    have hres : add_expense s amount category date description today =
        .ok ({ s with expenses :=
                 s.expenses ++ [mkExpense s amount category date description today] },
             mkExpense s amount category date description today) := by
      unfold add_expense
      rw [if_neg hn]
    exact ⟨_, _, hres, rfl⟩
  · intro h
    have h1 : add_expense s amount category date description today = .error .valueError := by
      unfold add_expense
      rw [if_pos h]
    refine ⟨h1, ?_⟩
    simp only [applyOp, h1]

theorem C2_add_expense_validation_witness :
    (∃ s2 e, add_expense initialState 5 "food" (some "2024-03-10") "" t0 = .ok (s2, e) ∧
      e.amount = 5) ∧
    (add_expense initialState (-1) "food" (some "2024-03-10") "" t0 = .error .valueError ∧
      applyOp initialState (.add (-1) "food" (some "2024-03-10") "" t0) = initialState) :=
  ⟨(C2_add_expense_validation initialState 5 "food" (some "2024-03-10") "" t0).1 (by norm_num),
   (C2_add_expense_validation initialState (-1) "food" (some "2024-03-10") "" t0).2 (by norm_num)⟩

/-- Claim C3 (code bug): the spec requires edit_expense to re-validate that a
supplied amount is strictly positive; the code applies the update without any
check. Evaluating the code: from the empty ledger, add an expense of amount 5
and then edit it to amount -3; the edit succeeds and the reachable state
holds a non-positive amount. -/
theorem C3_edit_accepts_nonpositive_amount :
    ((runOps initialState opsC3).expenses.map Expense.amount) = [-3] ∧
    (runOps initialState opsC3).expenses =
      [{ id := 1, amount := -3, category := "food", date := "2024-01-01",
         description := "" }] := ⟨rfl, rfl⟩

/-- Claim C4 counterexample: identity is not immutable under edit_expense
with an arbitrary set of supplied fields. Add an expense (assigned id 1),
then edit it supplying the id field; the surviving record's id is 2, not the
value assigned by add_expense. -/
theorem C4_id_edit_counterexample :
    ((runOps initialState
        [.add 5 "food" (some "2024-03-10") "" t0,
         .edit 1 { id := some 2 }]).expenses.map Expense.id) = [2] := rfl

/-- Claim C4 (amended): a record's id is kept by edit_expense whenever the
id key is not among the supplied fields, the only case the program's own
callers exercise. -/
theorem C4_id_immutable_without_id_field (s : LedgerState) (i : Int) (u : EditArgs)
    (h : u.id = none) :
    (applyOp s (.edit i u)).expenses.map Expense.id = s.expenses.map Expense.id := by
  simp only [applyOp, edit_expense]
  cases he : editFirst s.expenses i u with
  | none => rfl
  | some p =>
    cases p with
    | mk l2 r2 => exact editFirst_map_id i u h s.expenses l2 r2 he

theorem C4_id_immutable_witness :
    (applyOp s4 (.edit 1 { amount := some 9 })).expenses.map Expense.id =
      s4.expenses.map Expense.id :=
  C4_id_immutable_without_id_field s4 1 { amount := some 9 } rfl

/-- Claim C5 (code bug): generate_expense_report raises KeyError on a ledger
with an empty record collection (pandas: the DataFrame of an empty list has
no amount column), instead of returning totalExpenses 0 and remainingBudget
equal to income (1000 here). -/
theorem C5_report_empty_ledger_raises :
    generate_expense_report s5 t0 = .error .keyError ∧ s5.expenses = [] := ⟨rfl, rfl⟩

/-- Claim C6 (confirmed): in the report's current-period sums, daily counts
exactly the records whose date equals today, monthly exactly those whose
date has the same month number as today regardless of year, and yearly
exactly those whose date falls in the current calendar year. Stated for any
state the report can be generated on (nonempty records, all dates
parsable). -/
theorem C6_period_sums (s : LedgerState) (today : Date) (hne : s.expenses ≠ [])
    (hp : ∀ e ∈ s.expenses, (parseDate e.date).isSome = true) :
    ∃ r, generate_expense_report s today = .ok r ∧
      r.daily = sumAmounts (s.expenses.filter (sameDayAsToday today)) ∧
      r.monthly = sumAmounts (s.expenses.filter (sameMonthNumber today)) ∧
      r.yearly = sumAmounts (s.expenses.filter (sameCalendarYear today)) := by
  have hempty : s.expenses.isEmpty = false := by
    cases h : s.expenses with
    | nil => exact absurd h hne
    | cons a l => rfl
  have hall : s.expenses.all (fun e => (parseDate e.date).isSome) = true :=
    List.all_eq_true.mpr hp
  have hd : (fun e => decide (parseDate e.date = some today)) = sameDayAsToday today :=
    funext fun e => (sameDayAsToday_eq today e).symm
  have hm : (fun e => decide ((parseDate e.date).map Date.month = some today.month)) =
      sameMonthNumber today :=
    funext fun e => (sameMonthNumber_eq today e).symm
  have hy : (fun e => decide ((parseDate e.date).map Date.year = some today.year)) =
      sameCalendarYear today :=
    funext fun e => (sameCalendarYear_eq today e).symm
  have hrep : generate_expense_report s today = .ok
      { total_expenses := sumAmounts s.expenses,
        category_breakdown := get_expenses_by_category s,
        income := s.income,
        remaining_budget := s.income - sumAmounts s.expenses,
        spending_limits := s.spending_limits,
        daily := sumAmounts (s.expenses.filter (sameDayAsToday today)),
        monthly := sumAmounts (s.expenses.filter (sameMonthNumber today)),
        yearly := sumAmounts (s.expenses.filter (sameCalendarYear today)) } := by
    unfold generate_expense_report
    rw [hempty, hall, hd, hm, hy]
    simp
  exact ⟨_, hrep, rfl, rfl, rfl⟩

theorem C6_period_sums_witness :
    (∃ r, generate_expense_report s6 t0 = .ok r ∧
      r.daily = sumAmounts (s6.expenses.filter (sameDayAsToday t0)) ∧
      r.monthly = sumAmounts (s6.expenses.filter (sameMonthNumber t0)) ∧
      r.yearly = sumAmounts (s6.expenses.filter (sameCalendarYear t0))) ∧
    (s6.expenses.filter (sameDayAsToday t0)).map Expense.id = [1] ∧
    (s6.expenses.filter (sameMonthNumber t0)).map Expense.id = [1, 2] ∧
    (s6.expenses.filter (sameCalendarYear t0)).map Expense.id = [1, 3] :=
  ⟨C6_period_sums s6 t0 (by decide) (by decide), rfl, rfl, rfl⟩

/-- Claim C7 (confirmed): loading the JSON document written by save_data
yields a state field-wise equal to the one persisted, for every ledger
state. -/
theorem C7_persist_load_roundtrip (s : LedgerState) :
    load_data (.parsed (save_data s)) = .ok s := by
  have h : load_data (.parsed (save_data s)) = Except.ok
      ({ expenses := decodeExpenses (.arr (s.expenses.map encodeExpense)),
         income := s.income,
         spending_limits := decodeLimits (encodeLimits s.spending_limits) } : LedgerState) := rfl
  rw [h, decodeExpenses_encode, decodeLimits_encode]

/-- Claim C8 counterexample: a storage target holding valid JSON whose top
level is not an object (here the document []) is structurally invalid, yet
load_data raises an uncaught AttributeError (data.get on a non-dict) instead
of yielding the empty ledger. -/
theorem C8_nonobject_counterexample :
    load_data (.parsed (.arr [])) = .error .attributeError ∧
    load_data (.parsed (.arr [])) ≠ .ok initialState :=
  ⟨rfl, fun h => Except.noConfusion h⟩

/-- Claim C8 (amended): an absent, unreadable, or JSON-unparsable storage
target yields the empty LedgerState (no records, zero income, all three
limits zero) without raising; a parsable non-object document instead raises
an uncaught AttributeError. -/
theorem C8_load_empty_on_corruption :
    load_data .absent = .ok initialState ∧
    load_data .unreadable = .ok initialState ∧
    load_data .invalidJson = .ok initialState ∧
    initialState =
      { expenses := [], income := 0, spending_limits := ⟨0, 0, 0⟩ } :=
  ⟨rfl, rfl, rfl, rfl⟩

/-- Claim C9 (confirmed): delete_expense is idempotent, and deleting an id
that matches no record leaves the state unchanged; delete_expense is a total
function on the state, so no error is possible. -/
theorem C9_delete_idempotent (s : LedgerState) (i : Int) :
    delete_expense (delete_expense s i) i = delete_expense s i ∧
    ((∀ e ∈ s.expenses, e.id ≠ i) → delete_expense s i = s) := by
  constructor
  · simp [delete_expense, filter_idem]
  · intro h
    have hf : s.expenses.filter (fun e => decide (e.id ≠ i)) = s.expenses :=
      List.filter_eq_self.mpr (fun e he => decide_eq_true (h e he))
    unfold delete_expense
    rw [hf]

theorem C9_delete_idempotent_witness :
    delete_expense s4 2 = s4 ∧
    delete_expense (delete_expense s4 2) 2 = delete_expense s4 2 :=
  ⟨(C9_delete_idempotent s4 2).2 (by decide), (C9_delete_idempotent s4 2).1⟩

/-- Claim C10 (confirmed): loading a readable JSON object that may be
missing any of the top-level keys expenses, income, spending_limits succeeds
and substitutes the default for each missing key independently, keeping the
values of the keys that are present. -/
theorem C10_missing_keys_defaults (oe : Option (List Expense)) (oi : Option ℚ)
    (ol : Option SpendingLimits) :
    load_data (.parsed (mkStoredDoc oe oi ol)) =
      .ok { expenses := oe.getD [], income := oi.getD 0,
            spending_limits := ol.getD ⟨0, 0, 0⟩ } := by
  cases oe with
  | none => cases oi <;> cases ol <;> rfl
  | some l =>
    cases oi with
    | none =>
      cases ol with
      | none =>
        have h : load_data (.parsed (mkStoredDoc (some l) none none)) = Except.ok
            ({ expenses := decodeExpenses (.arr (l.map encodeExpense)),
               income := 0, spending_limits := ⟨0, 0, 0⟩ } : LedgerState) := rfl
        rw [h, decodeExpenses_encode]
        rfl
      | some lim =>
        have h : load_data (.parsed (mkStoredDoc (some l) none (some lim))) = Except.ok
            ({ expenses := decodeExpenses (.arr (l.map encodeExpense)),
               income := 0, spending_limits := lim } : LedgerState) := rfl
        rw [h, decodeExpenses_encode]
        rfl
    | some q =>
      cases ol with
      | none =>
        have h : load_data (.parsed (mkStoredDoc (some l) (some q) none)) = Except.ok
            ({ expenses := decodeExpenses (.arr (l.map encodeExpense)),
               income := q, spending_limits := ⟨0, 0, 0⟩ } : LedgerState) := rfl
        rw [h, decodeExpenses_encode]
        rfl
      | some lim =>
        have h : load_data (.parsed (mkStoredDoc (some l) (some q) (some lim))) = Except.ok
            ({ expenses := decodeExpenses (.arr (l.map encodeExpense)),
               income := q, spending_limits := lim } : LedgerState) := rfl
        rw [h, decodeExpenses_encode]
        rfl
